import Mathlib

/-!
# PyV8 module bootstrap and diagnostic logging

A shallow embedding of `src/PyV8.cpp`: the severity text conversions
(`operator>>`, `operator<<`), `initialize_logging`, `load_external_data` and
the module entry point `BOOST_PYTHON_MODULE(_PyV8)`.

Process state is passed explicitly.  Calls into Boost.Log, Boost.Filesystem,
V8 and the capability classes are recorded, in program order, in an event
list; whatever those calls answer (the environment, the file system, the
clock, whether a call throws) is read from a `World`.
-/

namespace PyV8

/-! ## Severity model -/

/-- Modelled from the spec: the enumeration `severity_level` is declared in a
header that is not part of the sources at hand; the spec gives it as the
ordered enumeration TRACE < DEBUG < INFO < WARNING < ERROR < FATAL, and the
source uses exactly the enumerators `trace`, `debug`, `info`, `warning`,
`error`, `fatal`. -/
inductive severity_level
  | trace
  | debug
  | info
  | warning
  | error
  | fatal
  deriving DecidableEq, Repr

/-- Underlying integral value of an enumerator (declaration order). -/
def severity_level.toNat : severity_level → Nat
  | .trace => 0
  | .debug => 1
  | .info => 2
  | .warning => 3
  | .error => 4
  | .fatal => 5

/-- The built-in comparison of two enumerators compares their values. -/
instance : LE severity_level := ⟨fun a b => a.toNat ≤ b.toNat⟩

instance (a b : severity_level) : Decidable (a ≤ b) :=
  inferInstanceAs (Decidable (a.toNat ≤ b.toNat))

/-- What the bootstrap can throw. -/
inductive Error
  /-- The exception `std::invalid_argument(s)` of `operator>>`. -/
  | invalid_argument (what : String)
  /-- The exception of `fs::canonical` for a path that does not resolve. -/
  | filesystem_error (path : String)
  /-- An exception leaving one of the recorded library calls. -/
  | call_failed
  deriving DecidableEq, Repr

/-- The classic-locale `isspace`: space, and the controls 9 to 13
(tab, line feed, vertical tab, form feed, carriage return). -/
def isspace (c : Char) : Bool :=
  c.toNat == 32 || (9 ≤ c.toNat && c.toNat ≤ 13)

/-- The statement `stream >> s` on a fresh stream over `input`: leading white
space is skipped, then characters are taken up to the next white space or the
end of input.  When nothing can be taken, `s` stays empty. -/
def extract_word (input : String) : String :=
  String.mk ((input.toList.dropWhile isspace).takeWhile (fun c => !isspace c))

/-- The extraction `operator>> (stream, level)`, lines 52-69, on a fresh
stream over `input`: the extracted word is compared with the six literals in
turn; `.ok l` is the assignment `level = l`, `.error` the `throw`. -/
def parse (input : String) : Except Error severity_level :=
  let s := extract_word input
  if s = "TRACE" then .ok .trace
  else if s = "DEBUG" then .ok .debug
  else if s = "INFO" then .ok .info
  else if s = "WARNING" then .ok .warning
  else if s = "ERROR" then .ok .error
  else if s = "FATAL" then .ok .fatal
  else .error (.invalid_argument s)

/-- The insertion `operator<< (stream, level)`, lines 71-85: the text written
to the stream. -/
def format : severity_level → String
  | .trace => "TRACE"
  | .debug => "DEBUG"
  | .info => "INFO"
  | .warning => "WARNING"
  | .error => "ERROR"
  | .fatal => "FATAL"

/-- The six severity literals. -/
def literals : List String :=
  ["TRACE", "DEBUG", "INFO", "WARNING", "ERROR", "FATAL"]

deriving instance DecidableEq for Except

/-! ## Log records and their rendering -/

/-- A `boost::posix_time::ptime` time point, broken down into the calendar
fields the format string of the formatter uses, with the ranges the library
types guarantee. -/
structure ptime where
  year : Nat
  month : Nat
  day : Nat
  hours : Nat
  minutes : Nat
  seconds : Nat
  year_range : 1400 ≤ year ∧ year ≤ 9999
  month_range : 1 ≤ month ∧ month ≤ 12
  day_range : 1 ≤ day ∧ day ≤ 31
  hours_range : hours < 24
  minutes_range : minutes < 60
  seconds_range : seconds < 60

/-- Two decimal digits, zero filled. -/
def pad2 (n : Nat) : List Char :=
  [Nat.digitChar (n / 10), Nat.digitChar (n % 10)]

/-- Four decimal digits, zero filled. -/
def pad4 (n : Nat) : List Char :=
  [Nat.digitChar (n / 1000), Nat.digitChar (n / 100 % 10),
   Nat.digitChar (n / 10 % 10), Nat.digitChar (n % 10)]

/-- The formatter piece
`expr::format_date_time< ptime >("TimeStamp", "%Y-%m-%d %H:%M:%S")`. -/
def format_date_time (t : ptime) : String :=
  String.mk (pad4 t.year ++ ['-'] ++ pad2 t.month ++ ['-'] ++ pad2 t.day ++ [' ']
    ++ pad2 t.hours ++ [':'] ++ pad2 t.minutes ++ [':'] ++ pad2 t.seconds)

/-- Text of a pointer value on an output stream (implementation defined; here
the usual rendering: hexadecimal with the `0x` base mark, plain `0` for the
null pointer). -/
def show_pointer (p : Nat) : String :=
  if p = 0 then "0" else "0x" ++ String.mk (Nat.toDigits 16 p)

/-- An attribute keyword placed in a formatting stream writes the value of the
attribute when the record has it and nothing otherwise. -/
def show_attr : Option Nat → String
  | some p => show_pointer p
  | none => ""

/-- A log record as the sink sees it: the attribute values the formatter and
the filter read.  `TimeStamp` comes from `add_common_attributes`, `Severity`
from the severity logger, `Isolate` and `Context` (pointer values) are present
only when the emitting logger carries them. -/
structure LogRecord where
  TimeStamp : ptime
  Severity : severity_level
  Isolate : Option Nat
  Context : Option Nat
  Message : String

/-- The formatter expression of lines 107-115.  `cond` is the value of the
C++ subexpression `g_logging_level >= debug`, a plain `bool` that is computed
once, when the expression is built; `has_attr(isolate)` is evaluated on each
record. -/
def formatter_expr (cond : Bool) (r : LogRecord) : String :=
  format_date_time r.TimeStamp
    ++ (if cond && r.Isolate.isSome
        then " [" ++ show_attr r.Isolate ++ ":" ++ show_attr r.Context ++ "]"
        else "")
    ++ " <" ++ format r.Severity ++ "> " ++ r.Message

/-- The filter expression of lines 117-119, `severity >= boost::ref(g_logging_level)`:
`current` is the value the referenced global holds when the filter runs. -/
def filter_expr (current : severity_level) (r : LogRecord) : Bool :=
  decide (r.Severity ≥ current)

/-- Output streams a sink backend can hold; the source adds `std::clog` only. -/
inductive ostream
  | clog
  deriving DecidableEq, Repr

/-- A `text_sink` (synchronous front end over a text stream backend). -/
structure text_sink where
  streams : List ostream
  auto_flush : Bool
  formatter : LogRecord → String
  filter : severity_level → LogRecord → Bool

/-- A freshly made sink: no stream, no flushing, message-only output, every
record accepted. -/
def text_sink.fresh : text_sink :=
  { streams := [], auto_flush := false,
    formatter := fun r => r.Message, filter := fun _ _ => true }

/-! ## Process state, events and the outside world -/

/-- The capability classes whose `Expose()` the entry point calls. -/
inductive Capability
  | CJavascriptException
  | CWrapper
  | CContext
  | CAstNode
  | CEngine
  | CDebug
  | CLocker
  deriving DecidableEq, Repr

/-- Calls with an effect outside this translation unit, as recorded in the
event list. -/
inductive Event
  | register_simple_formatter_factory
  | register_simple_filter_factory
  | add_common_attributes
  | add_sink
  | write (stream : ostream) (line : String) (flushed : Bool)
  | InitializeICUDefaultLocation (path : String)
  | InitializeExternalStartupData (path : String)
  | CreateDefaultPlatform
  | InitializePlatform
  | Initialize
  | new_CIsolate
  | Enter
  | Expose (c : Capability)
  deriving DecidableEq, Repr

/-- Everything the bootstrap reads from outside. -/
structure World where
  /-- Result of `getenv("PYV8_LOG")`; `none` is the null pointer. -/
  getenv_PYV8_LOG : Option String
  /-- The string `frame->f_code->co_filename` of the calling Python frame. -/
  co_filename : String
  /-- Result of `fs::current_path()`. -/
  current_path : String
  /-- Result of `fs::canonical(p, base)`; `none` when it throws (the path does
  not exist). -/
  canonical : String → String → Option String
  /-- Time stamp given to a record, by the number of events so far. -/
  clock : Nat → ptime
  /-- Whether a recorded call throws. -/
  throws : Event → Bool

/-- Process-wide state touched by the bootstrap. -/
structure State where
  /-- The global `g_logging_level`. -/
  g_logging_level : severity_level
  /-- The sinks registered in `logging::core`. -/
  sinks : List text_sink
  /-- The calls made so far, oldest first. -/
  events : List Event

/-- State at load time: line 44 initialises `g_logging_level` to `error`;
nothing is registered and nothing has been called. -/
def State.initial : State :=
  { g_logging_level := .error, sinks := [], events := [] }

/-- How a piece of the bootstrap ends: normally, or by an exception leaving
it, either way with the process state reached. -/
inductive Outcome
  | ok (st : State)
  | thrown (e : Error) (st : State)

/-- Process state at the end. -/
def Outcome.state : Outcome → State
  | .ok st => st
  | .thrown _ st => st

/-- The exception, if one left. -/
def Outcome.exception : Outcome → Option Error
  | .ok _ => none
  | .thrown e _ => some e

/-- Sequencing of statements: what follows runs only when nothing was thrown. -/
def Outcome.andThen (o : Outcome) (next : State → Outcome) : Outcome :=
  match o with
  | .ok st => next st
  | .thrown e st => .thrown e st

/-- A recorded call: it is entered (and recorded), then throws or returns. -/
def call (w : World) (e : Event) (st : State) : Outcome :=
  let st1 := { st with events := st.events ++ [e] }
  if w.throws e then .thrown .call_failed st1 else .ok st1

/-- What the registered sinks write for record `r` in state `st`: each sink
whose filter accepts the record writes its formatted line to each of its
streams. -/
def deliver (st : State) (r : LogRecord) : List Event :=
  st.sinks.flatMap fun sink =>
    if sink.filter st.g_logging_level r
    then sink.streams.map fun o => Event.write o (sink.formatter r) sink.auto_flush
    else []

/-- A record pushed into the logging core. -/
def push_record (r : LogRecord) (st : State) : State :=
  { st with events := st.events ++ deliver st r }

/-- The statement `BOOST_LOG_SEV(logger, lvl) << message` on the local
`logger_t logger`, which carries no `Isolate` or `Context` attribute. -/
def BOOST_LOG_SEV (w : World) (lvl : severity_level) (message : String) (st : State) : State :=
  push_record { TimeStamp := w.clock st.events.length, Severity := lvl,
                Isolate := none, Context := none, Message := message } st

/-! ## The bootstrap -/

/-- Lines 94-121 of `initialize_logging`, after the environment was read. -/
def attach_sink (w : World) (st : State) : Outcome :=
  (call w .register_simple_formatter_factory st).andThen fun st =>
  (call w .register_simple_filter_factory st).andThen fun st =>
  let sink := text_sink.fresh
  let sink := { sink with streams := sink.streams ++ [ostream.clog] }
  let sink := { sink with auto_flush := true }
  (call w .add_common_attributes st).andThen fun st =>
  let sink := { sink with formatter := formatter_expr (decide (st.g_logging_level ≥ severity_level.debug)) }
  let sink := { sink with filter := filter_expr }
  (call w .add_sink st).andThen fun st =>
  .ok { st with sinks := st.sinks ++ [sink] }

/-- The function `initialize_logging`, lines 87-122. -/
def initialize_logging (w : World) (st : State) : Outcome :=
  match w.getenv_PYV8_LOG with
  | some pyv8_log =>
    match parse pyv8_log with
    | .ok level => attach_sink w { st with g_logging_level := level }
    | .error e => .thrown e st
  | none => attach_sink w st

/-- The member `fs::path::parent_path` on a POSIX path string: the path
without its last element and without the separators before it; the root
directory is the parent of its entries and has no parent itself. -/
def parent_path (p : String) : String :=
  let rev := p.toList.reverse
  let upto := rev.dropWhile (fun c => c != '/')
  let dir := upto.dropWhile (fun c => c == '/')
  if upto = [] then ""
  else if dir = [] then (if rev.head? = some '/' then "" else "/")
  else String.mk dir.reverse

/-- The function `load_external_data`, lines 124-137. -/
def load_external_data (w : World) (st : State) : Outcome :=
  match w.canonical w.co_filename w.current_path with
  | none => .thrown (.filesystem_error w.co_filename) st
  | some load_path =>
    let st := BOOST_LOG_SEV w .debug
      ("load ICU data from " ++ parent_path load_path ++ " ...") st
    (call w (.InitializeICUDefaultLocation load_path) st).andThen fun st =>
    let st := BOOST_LOG_SEV w .debug
      ("load external snapshot from " ++ parent_path load_path ++ " ...") st
    call w (.InitializeExternalStartupData load_path) st

/-- The `Expose()` calls of lines 161-169; `SUPPORT_AST` is the build switch
of the same name. -/
def expose_all (SUPPORT_AST : Bool) (w : World) (st : State) : Outcome :=
  (call w (.Expose .CJavascriptException) st).andThen fun st =>
  (call w (.Expose .CWrapper) st).andThen fun st =>
  (call w (.Expose .CContext) st).andThen fun st =>
  (if SUPPORT_AST then call w (.Expose .CAstNode) st else .ok st).andThen fun st =>
  (call w (.Expose .CEngine) st).andThen fun st =>
  (call w (.Expose .CDebug) st).andThen fun st =>
  call w (.Expose .CLocker) st

/-- The module entry point `BOOST_PYTHON_MODULE(_PyV8)`, lines 139-170. -/
def init_PyV8 (SUPPORT_AST : Bool) (w : World) (st : State) : Outcome :=
  (initialize_logging w st).andThen fun st =>
  (load_external_data w st).andThen fun st =>
  let st := BOOST_LOG_SEV w .debug "initializing platform ..." st
  (call w .CreateDefaultPlatform st).andThen fun st =>
  (call w .InitializePlatform st).andThen fun st =>
  let st := BOOST_LOG_SEV w .debug "initializing V8 ..." st
  (call w .Initialize st).andThen fun st =>
  (call w .new_CIsolate st).andThen fun st =>
  (call w .Enter st).andThen fun st =>
  let st := BOOST_LOG_SEV w .debug "exposing modules ..." st
  expose_all SUPPORT_AST w st

/-- A state in which no record below ERROR can be written and none has been:
the threshold is ERROR, every registered sink filters with the filter
expression, and no write is among the events. -/
def Quiet (st : State) : Prop :=
  st.g_logging_level = .error ∧ (∀ sink ∈ st.sinks, sink.filter = filter_expr) ∧
    ∀ o l f, Event.write o l f ∉ st.events

/-- The calls `initialize_logging` makes. -/
def logging_calls : List Event :=
  [.register_simple_formatter_factory, .register_simple_filter_factory,
   .add_common_attributes, .add_sink]

/-! ## Concrete worlds used for evaluation -/

/-- A fixed time point, 2016-03-07 09:05:42. -/
def sample_time : ptime :=
  { year := 2016, month := 3, day := 7, hours := 9, minutes := 5, seconds := 42,
    year_range := by decide, month_range := by decide, day_range := by decide,
    hours_range := by decide, minutes_range := by decide, seconds_range := by decide }

/-- A world in which the importing script is `/home/user/app.py`, run from
`/home/user`, with the environment variable as given and no call throwing. -/
def sample_world (env : Option String) : World :=
  { getenv_PYV8_LOG := env
    co_filename := "app.py"
    current_path := "/home/user"
    canonical := fun p base => if p = "app.py" then some (base ++ "/" ++ p) else none
    clock := fun _ => sample_time
    throws := fun _ => false }

/-- A record stamped with the fixed time point. -/
def sample_record (sev : severity_level) (isolate context : Option Nat) : LogRecord :=
  { TimeStamp := sample_time, Severity := sev, Isolate := isolate, Context := context,
    Message := "script compiled" }

/-- The same world with an importing script that does not exist. -/
def missing_script_world (env : Option String) : World :=
  { sample_world env with co_filename := "gone.py" }

/-! ## Severity conversions -/

theorem mem_literals_iff (x : String) : x ∈ literals ↔ ∃ l, format l = x := by
  constructor
  · intro h
    simp only [literals, List.mem_cons, List.mem_singleton, List.not_mem_nil, or_false] at h
    rcases h with h | h | h | h | h | h
    · exact ⟨.trace, h.symm⟩
    · exact ⟨.debug, h.symm⟩
    · exact ⟨.info, h.symm⟩
    · exact ⟨.warning, h.symm⟩
    · exact ⟨.error, h.symm⟩
    · exact ⟨.fatal, h.symm⟩
  · rintro ⟨l, rfl⟩
    cases l <;> decide

theorem parse_of_word (input : String) (l : severity_level)
    (h : extract_word input = format l) : parse input = .ok l := by
  unfold parse
  rw [h]
  cases l <;> decide

theorem parse_format (l : severity_level) : parse (format l) = .ok l := by
  cases l <;> decide

/-- C1: severity parse and format are inverse to each other on the closed set:
each of the six literals parses, and formatting the parsed level gives the
literal back; each level formats to one of the six literals, and parsing that
text gives the level back. -/
theorem parse_format_inverse (x : String) (hx : x ∈ literals) (l : severity_level) :
    (∃ k, parse x = .ok k ∧ format k = x) ∧
      (format l ∈ literals ∧ parse (format l) = .ok l) := by
  refine ⟨?_, (mem_literals_iff _).2 ⟨l, rfl⟩, parse_format l⟩
  obtain ⟨k, rfl⟩ := (mem_literals_iff x).1 hx
  exact ⟨k, parse_format k, rfl⟩

theorem parse_format_inverse_witness :
    "WARNING" ∈ literals ∧
      ((∃ k, parse "WARNING" = .ok k ∧ format k = "WARNING") ∧
        (format .info ∈ literals ∧ parse (format .info) = .ok .info)) :=
  ⟨by decide, parse_format_inverse "WARNING" (by decide) .info⟩

/-- C2, as stated, fails: the text `DEBUG x` is not one of the six literals,
it merely starts with one, and parse accepts it as `debug`. -/
theorem parse_accepts_text_starting_with_literal :
    "DEBUG x" ∉ literals ∧ parse "DEBUG x" = .ok .debug ∧
      " DEBUG" ∉ literals ∧ parse " DEBUG" = .ok .debug := by
  decide

theorem parse_of_other_word (input : String)
    (h : extract_word input ∉ literals) :
    parse input = .error (.invalid_argument (extract_word input)) := by
  have h1 : ∀ l, extract_word input ≠ format l := fun l hl =>
    h ((mem_literals_iff _).2 ⟨l, hl.symm⟩)
  have t := h1 .trace
  have d := h1 .debug
  have i := h1 .info
  have w := h1 .warning
  have e := h1 .error
  have f := h1 .fatal
  simp only [format] at t d i w e f
  unfold parse
  simp only [if_neg t, if_neg d, if_neg i, if_neg w, if_neg e, if_neg f]

/-- C2, amended: parse fails with `std::invalid_argument`, carrying the
extracted word, for every input whose first white-space delimited word is not
exactly one of the six literals. -/
theorem parse_rejects_other_words (input : String)
    (h : extract_word input ∉ literals) :
    parse input = .error (.invalid_argument (extract_word input)) :=
  parse_of_other_word input h

theorem parse_rejects_other_words_witness :
    extract_word "debug" ∉ literals ∧
      parse "debug" = .error (.invalid_argument (extract_word "debug")) :=
  ⟨by decide, parse_rejects_other_words "debug" (by decide)⟩

/-- An input without white space is its own first word. -/
theorem extract_word_of_no_space (input : String)
    (h : ∀ c ∈ input.toList, isspace c = false) : extract_word input = input := by
  unfold extract_word
  have h1 : input.toList.dropWhile isspace = input.toList := by
    cases hl : input.toList with
    | nil => rfl
    | cons c cs =>
      have hc : isspace c = false := h c (by rw [hl]; exact List.mem_cons_self _ _)
      simp [List.dropWhile, hc]
  rw [h1]
  have h2 : input.toList.takeWhile (fun c => !isspace c) = input.toList := by
    rw [List.takeWhile_eq_self_iff]
    intro c hc
    simp [h c hc]
  rw [h2]
  cases input
  rfl

/-! ## Time stamps -/

theorem call_andThen (w : World) (e : Event) (st : State) (next : State → Outcome) :
    (call w e st).andThen next =
      if w.throws e then .thrown .call_failed { st with events := st.events ++ [e] }
      else next { st with events := st.events ++ [e] } := by
  unfold call
  by_cases h : w.throws e = true <;> simp [h, Outcome.andThen]

/-- What `attach_sink` leaves behind: the threshold is untouched; the sink
registry is unchanged when a call threw and holds one more sink, configured as
in the source, when none did. -/
theorem attach_sink_spec (w : World) (st : State) :
    (attach_sink w st).state.g_logging_level = st.g_logging_level ∧
    ((attach_sink w st).exception ≠ none → (attach_sink w st).state.sinks = st.sinks) ∧
    ((attach_sink w st).exception = none →
      ∃ sink, (attach_sink w st).state.sinks = st.sinks ++ [sink] ∧
        sink.streams = [.clog] ∧ sink.auto_flush = true ∧ sink.filter = filter_expr ∧
        sink.formatter = formatter_expr (decide (st.g_logging_level ≥ severity_level.debug))) := by
  simp only [attach_sink, call_andThen]
  split_ifs <;> simp [Outcome.state, Outcome.exception, text_sink.fresh]

theorem initialize_logging_unset (w : World) (st : State)
    (hv : w.getenv_PYV8_LOG = none) : initialize_logging w st = attach_sink w st := by
  unfold initialize_logging
  rw [hv]

theorem initialize_logging_accepted (w : World) (st : State) (v : String)
    (l : severity_level) (hv : w.getenv_PYV8_LOG = some v) (hp : parse v = .ok l) :
    initialize_logging w st = attach_sink w { st with g_logging_level := l } := by
  unfold initialize_logging
  rw [hv]
  simp only [hp]

theorem initialize_logging_rejected (w : World) (st : State) (v : String)
    (e : Error) (hv : w.getenv_PYV8_LOG = some v) (hp : parse v = .error e) :
    initialize_logging w st = .thrown e st := by
  unfold initialize_logging
  rw [hv]
  simp only [hp]

/-- The three ways `initialize_logging` can go. -/
theorem initialize_logging_cases (w : World) (st : State) :
    (∃ l, initialize_logging w st = attach_sink w { st with g_logging_level := l }) ∨
      ∃ e, initialize_logging w st = .thrown e st := by
  cases hv : w.getenv_PYV8_LOG with
  | none => exact .inl ⟨st.g_logging_level, initialize_logging_unset w st hv⟩
  | some v =>
    cases hp : parse v with
    | ok l => exact .inl ⟨l, initialize_logging_accepted w st v l hv hp⟩
    | error e => exact .inr ⟨e, initialize_logging_rejected w st v e hv hp⟩

/-- After a normal return of `initialize_logging` at load time the registry
holds exactly one sink: it writes to `std::clog`, flushes each record, filters
with the filter expression and formats with the formatter expression, whose
condition was fixed from the threshold at that moment. -/
theorem initialize_logging_sink (w : World)
    (h : (initialize_logging w State.initial).exception = none) :
    ∃ sink, (initialize_logging w State.initial).state.sinks = [sink] ∧
      sink.streams = [.clog] ∧ sink.auto_flush = true ∧ sink.filter = filter_expr ∧
      sink.formatter = formatter_expr
        (decide ((initialize_logging w State.initial).state.g_logging_level
          ≥ severity_level.debug)) := by
  rcases initialize_logging_cases w State.initial with ⟨l, hl⟩ | ⟨e, he⟩
  · rw [hl] at h ⊢
    obtain ⟨sink, h1, h2⟩ := (attach_sink_spec w _).2.2 h
    rw [(attach_sink_spec w _).1]
    exact ⟨sink, by simpa [State.initial] using h1, h2⟩
  · rw [he] at h
    simp [Outcome.exception] at h

/-- C3: once `initialize_logging` has returned, a record is written by the
sink exactly when its severity is at least the threshold held by the global at
the time the record is delivered, whatever the threshold was when the sink was
built; a written record goes to `std::clog` as the formatted line, flushed. -/
theorem filter_reads_threshold_at_emission (w : World)
    (h : (initialize_logging w State.initial).exception = none)
    (t : severity_level) (r : LogRecord) :
    (deliver { (initialize_logging w State.initial).state with g_logging_level := t } r ≠ []
        ↔ r.Severity ≥ t) ∧
      deliver { (initialize_logging w State.initial).state with g_logging_level := t } r =
        if r.Severity ≥ t then
          (initialize_logging w State.initial).state.sinks.map fun sink =>
            Event.write .clog (sink.formatter r) true
        else [] := by
  obtain ⟨sink, h1, h2, h3, h4, -⟩ := initialize_logging_sink w h
  have key : deliver { (initialize_logging w State.initial).state with g_logging_level := t } r =
      if r.Severity ≥ t then
        (initialize_logging w State.initial).state.sinks.map fun sink =>
          Event.write .clog (sink.formatter r) true
      else [] := by
    simp only [deliver, h1, h2, h3, h4, filter_expr, List.flatMap_cons, List.flatMap_nil,
      List.map_cons, List.map_nil, List.append_nil, decide_eq_true_eq]
  refine ⟨?_, key⟩
  rw [key, h1]
  by_cases hs : r.Severity ≥ t <;> simp [hs]

theorem filter_reads_threshold_at_emission_witness :
    (initialize_logging (sample_world none) State.initial).exception = none ∧
      deliver { (initialize_logging (sample_world none) State.initial).state with
          g_logging_level := .warning } (sample_record .info none none) = [] ∧
      deliver { (initialize_logging (sample_world none) State.initial).state with
          g_logging_level := .warning } (sample_record .warning none none) =
        [.write .clog "2016-03-07 09:05:42 <WARNING> script compiled" true] ∧
      deliver { (initialize_logging (sample_world none) State.initial).state with
          g_logging_level := .warning } (sample_record .error none none) =
        [.write .clog "2016-03-07 09:05:42 <ERROR> script compiled" true] ∧
      deliver { (initialize_logging (sample_world none) State.initial).state with
          g_logging_level := .debug } (sample_record .trace none none) = [] :=
  ⟨by decide,
    (filter_reads_threshold_at_emission (sample_world none) (by decide) .warning
      (sample_record .info none none)).2.trans (by decide),
    (filter_reads_threshold_at_emission (sample_world none) (by decide) .warning
      (sample_record .warning none none)).2.trans (by decide),
    (filter_reads_threshold_at_emission (sample_world none) (by decide) .warning
      (sample_record .error none none)).2.trans (by decide),
    (filter_reads_threshold_at_emission (sample_world none) (by decide) .debug
      (sample_record .trace none none)).2.trans (by decide)⟩

/-- C4, the code at the failing inputs: with the variable unset the threshold
is ERROR and the formatter built by `initialize_logging` writes the bracketed
identity segment for a record that carries identity; with the variable set to
TRACE the same record is written without the segment. -/
theorem identity_segment_test_is_inverted :
    (initialize_logging (sample_world none) State.initial).state.g_logging_level = .error ∧
      (initialize_logging (sample_world none) State.initial).state.sinks.map
          (fun sink => sink.formatter (sample_record .error (some 31) (some 42))) =
        ["2016-03-07 09:05:42 [0x1f:0x2a] <ERROR> script compiled"] ∧
      (initialize_logging (sample_world (some "TRACE")) State.initial).state.g_logging_level
        = .trace ∧
      (initialize_logging (sample_world (some "TRACE")) State.initial).state.sinks.map
          (fun sink => sink.formatter (sample_record .error (some 31) (some 42))) =
        ["2016-03-07 09:05:42 <ERROR> script compiled"] := by
  decide

theorem call_of_no_throw (w : World) (hno : ∀ e, w.throws e = false) (e : Event) (st : State) :
    call w e st = .ok { st with events := st.events ++ [e] } := by
  simp [call, hno]

theorem deliver_only_writes (st : State) (r : LogRecord) :
    ∀ e ∈ deliver st r, ∃ o l f, e = Event.write o l f := by
  intro e he
  simp only [deliver, List.mem_flatMap] at he
  obtain ⟨sink, -, hs⟩ := he
  split_ifs at hs
  · simp only [List.mem_map] at hs
    obtain ⟨o, -, rfl⟩ := hs
    exact ⟨_, _, _, rfl⟩
  · simp at hs

/-- C6: with the variable unset, the script path resolving and no call
throwing, the entry point returns normally and has made exactly these calls,
in this order, each once: the four logging set-up calls ending with the sink
being attached, the two data calls, platform creation and initialisation,
engine initialisation, construction and entering of the root isolate, and the
`Expose()` calls in the fixed order, `CAstNode` only under `SUPPORT_AST`. -/
theorem bootstrap_order (SUPPORT_AST : Bool) (w : World) (p : String)
    (henv : w.getenv_PYV8_LOG = none)
    (hp : w.canonical w.co_filename w.current_path = some p)
    (hno : ∀ e, w.throws e = false) :
    (init_PyV8 SUPPORT_AST w State.initial).exception = none ∧
      (init_PyV8 SUPPORT_AST w State.initial).state.events =
        [.register_simple_formatter_factory, .register_simple_filter_factory,
         .add_common_attributes, .add_sink,
         .InitializeICUDefaultLocation p, .InitializeExternalStartupData p,
         .CreateDefaultPlatform, .InitializePlatform, .Initialize, .new_CIsolate, .Enter,
         .Expose .CJavascriptException, .Expose .CWrapper, .Expose .CContext]
        ++ (if SUPPORT_AST then [.Expose .CAstNode] else [])
        ++ [.Expose .CEngine, .Expose .CDebug, .Expose .CLocker] ∧
      (init_PyV8 SUPPORT_AST w State.initial).state.events.Nodup ∧
      (init_PyV8 SUPPORT_AST w State.initial).state.sinks.length = 1 := by
  have hd : (severity_level.debug ≥ severity_level.error) = False := eq_false (by decide)
  have hb : decide (severity_level.error ≥ severity_level.debug) = true := by decide
  have key : init_PyV8 SUPPORT_AST w State.initial = .ok
      { g_logging_level := .error,
        sinks := [{ streams := [.clog], auto_flush := true,
                    formatter := formatter_expr true, filter := filter_expr }],
        events := [.register_simple_formatter_factory, .register_simple_filter_factory,
         .add_common_attributes, .add_sink,
         .InitializeICUDefaultLocation p, .InitializeExternalStartupData p,
         .CreateDefaultPlatform, .InitializePlatform, .Initialize, .new_CIsolate, .Enter,
         .Expose .CJavascriptException, .Expose .CWrapper, .Expose .CContext]
        ++ (if SUPPORT_AST then [.Expose .CAstNode] else [])
        ++ [.Expose .CEngine, .Expose .CDebug, .Expose .CLocker] } := by
    cases SUPPORT_AST <;>
    simp only [init_PyV8, initialize_logging_unset w _ henv, attach_sink, call_of_no_throw w hno,
      Outcome.andThen, load_external_data, hp, BOOST_LOG_SEV, push_record, deliver,
      filter_expr, expose_all, State.initial, text_sink.fresh, hd, hb, decide_False,
      List.flatMap_cons, List.flatMap_nil, List.nil_append, List.append_nil, List.cons_append,
      Bool.false_eq_true, if_false, if_true]
  rw [key]
  cases SUPPORT_AST <;> simp [Outcome.exception, Outcome.state]

theorem bootstrap_order_witness :
    (sample_world none).getenv_PYV8_LOG = none ∧
      (sample_world none).canonical (sample_world none).co_filename
        (sample_world none).current_path = some "/home/user/app.py" ∧
      (∀ e, (sample_world none).throws e = false) ∧
      ((init_PyV8 true (sample_world none) State.initial).exception = none ∧
        (init_PyV8 true (sample_world none) State.initial).state.events =
          [.register_simple_formatter_factory, .register_simple_filter_factory,
           .add_common_attributes, .add_sink,
           .InitializeICUDefaultLocation "/home/user/app.py",
           .InitializeExternalStartupData "/home/user/app.py",
           .CreateDefaultPlatform, .InitializePlatform, .Initialize, .new_CIsolate, .Enter,
           .Expose .CJavascriptException, .Expose .CWrapper, .Expose .CContext]
          ++ (if true = true then [.Expose .CAstNode] else [])
          ++ [.Expose .CEngine, .Expose .CDebug, .Expose .CLocker] ∧
        (init_PyV8 true (sample_world none) State.initial).state.events.Nodup ∧
        (init_PyV8 true (sample_world none) State.initial).state.sinks.length = 1) :=
  ⟨rfl, by decide, fun _ => rfl,
    bootstrap_order true (sample_world none) "/home/user/app.py" rfl (by decide) (fun _ => rfl)⟩

/-- C7: when the variable holds a text that parse rejects, the entry point
ends with the exception thrown by parse, an `std::invalid_argument` carrying
the extracted word, and at that point nothing has happened: no sink is
registered, no call of any kind has been made, the threshold is unchanged. -/
theorem rejected_variable_aborts_first (SUPPORT_AST : Bool) (w : World) (v : String)
    (e : Error) (hv : w.getenv_PYV8_LOG = some v) (hp : parse v = .error e) :
    (init_PyV8 SUPPORT_AST w State.initial).exception = some e ∧
      e = .invalid_argument (extract_word v) ∧
      (init_PyV8 SUPPORT_AST w State.initial).state.sinks = [] ∧
      (init_PyV8 SUPPORT_AST w State.initial).state.events = [] ∧
      (init_PyV8 SUPPORT_AST w State.initial).state.g_logging_level = .error := by
  have he : e = .invalid_argument (extract_word v) := by
    by_cases hm : extract_word v ∈ literals
    · obtain ⟨l, hl⟩ := (mem_literals_iff _).1 hm
      rw [parse_of_word v l hl.symm] at hp
      cases hp
    · rw [parse_of_other_word v hm] at hp
      injection hp with hp
      exact hp.symm
  simp [init_PyV8, initialize_logging_rejected w _ v e hv hp, Outcome.andThen,
    Outcome.exception, Outcome.state, State.initial, he]

theorem rejected_variable_aborts_first_witness :
    (sample_world (some "VERBOSE")).getenv_PYV8_LOG = some "VERBOSE" ∧
      parse "VERBOSE" = .error (.invalid_argument "VERBOSE") ∧
      ((init_PyV8 true (sample_world (some "VERBOSE")) State.initial).exception
          = some (.invalid_argument "VERBOSE") ∧
        Error.invalid_argument "VERBOSE" = .invalid_argument (extract_word "VERBOSE") ∧
        (init_PyV8 true (sample_world (some "VERBOSE")) State.initial).state.sinks = [] ∧
        (init_PyV8 true (sample_world (some "VERBOSE")) State.initial).state.events = [] ∧
        (init_PyV8 true (sample_world (some "VERBOSE")) State.initial).state.g_logging_level
          = .error) :=
  ⟨rfl, by decide,
    rejected_variable_aborts_first true (sample_world (some "VERBOSE")) "VERBOSE" _ rfl
      (by decide)⟩

/-! ## External data -/

/-- A log statement adds only writes to the events. -/
theorem BOOST_LOG_SEV_events (w : World) (lvl : severity_level) (message : String)
    (st : State) :
    ∃ log : List Event, (∀ e ∈ log, ∃ o l f, e = Event.write o l f) ∧
      (BOOST_LOG_SEV w lvl message st).events = st.events ++ log :=
  ⟨_, deliver_only_writes _ _, rfl⟩

/-- C5, as stated, fails: with the script `/home/user/app.py` and the variable
set to DEBUG, the two log lines name the parent directory `/home/user`, but
both data calls are passed the path of the file itself. -/
theorem data_calls_get_file_path :
    (load_external_data (sample_world (some "DEBUG"))
        (initialize_logging (sample_world (some "DEBUG")) State.initial).state).state.events =
      [.register_simple_formatter_factory, .register_simple_filter_factory,
       .add_common_attributes, .add_sink,
       .write .clog "2016-03-07 09:05:42 <DEBUG> load ICU data from /home/user ..." true,
       .InitializeICUDefaultLocation "/home/user/app.py",
       .write .clog "2016-03-07 09:05:42 <DEBUG> load external snapshot from /home/user ..." true,
       .InitializeExternalStartupData "/home/user/app.py"] ∧
      parent_path "/home/user/app.py" = "/home/user" ∧
      parent_path "/home/user/app.py" ≠ "/home/user/app.py" := by
  decide

/-- C5, amended: when the script path resolves to the canonical path `p`,
`load_external_data` does exactly this, from any state: it pushes a DEBUG
record whose message is `load ICU data from` followed by the parent directory of
`p`, calls `InitializeICUDefaultLocation` with `p` itself, pushes a DEBUG record
whose message is `load external snapshot from` followed by the parent directory
of `p`, and calls `InitializeExternalStartupData` with `p` itself.  After
`initialize_logging` has returned, each record is written to `std::clog`, as
time stamp, `<DEBUG>` and that message, exactly when the threshold is at most
DEBUG. -/
theorem data_calls_receive_canonical_path (w : World) (p : String)
    (hok : (initialize_logging w State.initial).exception = none)
    (hp : w.canonical w.co_filename w.current_path = some p)
    (hicu : w.throws (.InitializeICUDefaultLocation p) = false) :
    (∀ st : State, (load_external_data w st).state.events =
        st.events
          ++ deliver st (LogRecord.mk (w.clock st.events.length) .debug none none
              ("load ICU data from " ++ parent_path p ++ " ..."))
          ++ [.InitializeICUDefaultLocation p]
          ++ deliver
              { st with events := st.events
                  ++ deliver st (LogRecord.mk (w.clock st.events.length) .debug none none
                      ("load ICU data from " ++ parent_path p ++ " ..."))
                  ++ [.InitializeICUDefaultLocation p] }
              (LogRecord.mk
                (w.clock (st.events
                  ++ deliver st (LogRecord.mk (w.clock st.events.length) .debug none none
                      ("load ICU data from " ++ parent_path p ++ " ..."))
                  ++ [Event.InitializeICUDefaultLocation p]).length)
                severity_level.debug none none
                ("load external snapshot from " ++ parent_path p ++ " ..."))
          ++ [.InitializeExternalStartupData p]) ∧
      ∃ t1 t2 : ptime,
        (load_external_data w (initialize_logging w State.initial).state).state.events =
          (initialize_logging w State.initial).state.events
            ++ (if (initialize_logging w State.initial).state.g_logging_level
                  ≤ severity_level.debug
                then [.write .clog (format_date_time t1 ++ " <" ++ format .debug ++ "> "
                  ++ ("load ICU data from " ++ parent_path p ++ " ...")) true]
                else [])
            ++ [.InitializeICUDefaultLocation p]
            ++ (if (initialize_logging w State.initial).state.g_logging_level
                  ≤ severity_level.debug
                then [.write .clog (format_date_time t2 ++ " <" ++ format .debug ++ "> "
                  ++ ("load external snapshot from " ++ parent_path p ++ " ...")) true]
                else [])
            ++ [.InitializeExternalStartupData p] := by
  have hev : ∀ st : State, (load_external_data w st).state.events =
      st.events
          ++ deliver st (LogRecord.mk (w.clock st.events.length) .debug none none
              ("load ICU data from " ++ parent_path p ++ " ..."))
          ++ [.InitializeICUDefaultLocation p]
          ++ deliver
              { st with events := st.events
                  ++ deliver st (LogRecord.mk (w.clock st.events.length) .debug none none
                      ("load ICU data from " ++ parent_path p ++ " ..."))
                  ++ [.InitializeICUDefaultLocation p] }
              (LogRecord.mk
                (w.clock (st.events
                  ++ deliver st (LogRecord.mk (w.clock st.events.length) .debug none none
                      ("load ICU data from " ++ parent_path p ++ " ..."))
                  ++ [Event.InitializeICUDefaultLocation p]).length)
                severity_level.debug none none
                ("load external snapshot from " ++ parent_path p ++ " ..."))
          ++ [.InitializeExternalStartupData p] := by
    intro st
    simp only [load_external_data, hp, call_andThen, hicu, Bool.false_eq_true, if_false]
    unfold call
    split_ifs <;> rfl
  refine ⟨hev, ?_⟩
  obtain ⟨sink, h1, h2, h3, h4, h5⟩ := initialize_logging_sink w hok
  refine ⟨w.clock (initialize_logging w State.initial).state.events.length,
    w.clock ((initialize_logging w State.initial).state.events
      ++ deliver (initialize_logging w State.initial).state
          (LogRecord.mk (w.clock (initialize_logging w State.initial).state.events.length)
            .debug none none ("load ICU data from " ++ parent_path p ++ " ..."))
      ++ [Event.InitializeICUDefaultLocation p]).length, ?_⟩
  rw [hev]
  simp only [deliver, h1, h2, h3, h4, h5, filter_expr, formatter_expr, List.flatMap_cons,
    List.flatMap_nil, List.map_cons, List.map_nil, List.append_nil, Option.isSome_none,
    Bool.and_false, Bool.false_eq_true, if_false, String.append_empty, decide_eq_true_eq,
    GE.ge]

theorem data_calls_receive_canonical_path_witness :
    (initialize_logging (sample_world (some "DEBUG")) State.initial).exception = none ∧
      (sample_world (some "DEBUG")).canonical (sample_world (some "DEBUG")).co_filename
        (sample_world (some "DEBUG")).current_path = some "/home/user/app.py" ∧
      (sample_world (some "DEBUG")).throws (.InitializeICUDefaultLocation "/home/user/app.py")
        = false ∧
      (load_external_data (sample_world (some "DEBUG"))
          (initialize_logging (sample_world (some "DEBUG")) State.initial).state).state.events =
        (initialize_logging (sample_world (some "DEBUG")) State.initial).state.events ++
        [.write .clog "2016-03-07 09:05:42 <DEBUG> load ICU data from /home/user ..." true,
         .InitializeICUDefaultLocation "/home/user/app.py",
         .write .clog "2016-03-07 09:05:42 <DEBUG> load external snapshot from /home/user ..."
           true,
         .InitializeExternalStartupData "/home/user/app.py"] :=
  ⟨by decide, by decide, rfl,
    ((data_calls_receive_canonical_path (sample_world (some "DEBUG")) "/home/user/app.py"
      (by decide) (by decide) rfl).1
        (initialize_logging (sample_world (some "DEBUG")) State.initial).state).trans
      (by decide)⟩

theorem attach_sink_events (w : World) (st : State) :
    ∀ e ∈ (attach_sink w st).state.events, e ∈ st.events ∨ e ∈ logging_calls := by
  simp only [attach_sink, call_andThen, logging_calls]
  split_ifs <;> simp only [Outcome.state] <;> intro e he <;> simp at he ⊢ <;> tauto

theorem initialize_logging_events (w : World) (st : State) :
    ∀ e ∈ (initialize_logging w st).state.events, e ∈ st.events ∨ e ∈ logging_calls := by
  rcases initialize_logging_cases w st with ⟨l, hl⟩ | ⟨e, he⟩
  · rw [hl]
    exact attach_sink_events w _
  · rw [he]
    intro x hx
    exact .inl hx

theorem load_external_data_unresolved (w : World) (st : State)
    (h : w.canonical w.co_filename w.current_path = none) :
    load_external_data w st = .thrown (.filesystem_error w.co_filename) st := by
  unfold load_external_data
  rw [h]

/-- C9: when the path of the invoking script does not resolve,
`load_external_data` throws without having called anything, the entry point
ends with an exception, and the only calls it has made are logging set-up
calls: no data call, no platform or engine initialisation, no isolate
construction or entering, no `Expose()`. -/
theorem unresolved_script_aborts_before_platform (SUPPORT_AST : Bool) (w : World)
    (st : State) (h : w.canonical w.co_filename w.current_path = none) :
    load_external_data w st = .thrown (.filesystem_error w.co_filename) st ∧
      (init_PyV8 SUPPORT_AST w State.initial).exception ≠ none ∧
      ((initialize_logging w State.initial).exception = none →
        (init_PyV8 SUPPORT_AST w State.initial).exception
          = some (.filesystem_error w.co_filename)) ∧
      (∀ e ∈ (init_PyV8 SUPPORT_AST w State.initial).state.events, e ∈ logging_calls) ∧
      (∀ e ∈ (init_PyV8 SUPPORT_AST w State.initial).state.events,
        e ≠ .CreateDefaultPlatform ∧ e ≠ .InitializePlatform ∧ e ≠ .Initialize ∧
        e ≠ .new_CIsolate ∧ e ≠ .Enter ∧ (∀ c, e ≠ .Expose c) ∧
        (∀ q, e ≠ .InitializeICUDefaultLocation q) ∧
        (∀ q, e ≠ .InitializeExternalStartupData q)) := by
  have hev : ∀ e ∈ (init_PyV8 SUPPORT_AST w State.initial).state.events, e ∈ logging_calls := by
    intro e he
    have h1 : (init_PyV8 SUPPORT_AST w State.initial).state.events
        = (initialize_logging w State.initial).state.events := by
      unfold init_PyV8
      cases initialize_logging w State.initial with
      | ok s => simp [Outcome.andThen, load_external_data_unresolved w _ h, Outcome.state]
      | thrown x s => rfl
    rw [h1] at he
    rcases initialize_logging_events w State.initial e he with h2 | h2
    · simp [State.initial] at h2
    · exact h2
  refine ⟨load_external_data_unresolved w st h, ?_, ?_, hev, ?_⟩
  · unfold init_PyV8
    cases initialize_logging w State.initial with
    | ok s => simp [Outcome.andThen, load_external_data_unresolved w _ h, Outcome.exception]
    | thrown x s => simp [Outcome.andThen, Outcome.exception]
  · unfold init_PyV8
    cases initialize_logging w State.initial with
    | ok s =>
      intro _
      simp [Outcome.andThen, load_external_data_unresolved w _ h, Outcome.exception]
    | thrown x s => simp [Outcome.exception]
  · intro e he
    have := hev e he
    simp only [logging_calls, List.mem_cons, List.mem_singleton, List.not_mem_nil,
      or_false] at this
    rcases this with rfl | rfl | rfl | rfl <;> simp

theorem unresolved_script_aborts_before_platform_witness :
    (missing_script_world none).canonical (missing_script_world none).co_filename
        (missing_script_world none).current_path = none ∧
      (init_PyV8 true (missing_script_world none) State.initial).exception
        = some (.filesystem_error "gone.py") ∧
      (init_PyV8 true (missing_script_world none) State.initial).state.events
        = logging_calls ∧
      ∀ e ∈ (init_PyV8 true (missing_script_world none) State.initial).state.events,
        e ∈ logging_calls :=
  ⟨by decide, by decide, by decide,
    (unresolved_script_aborts_before_platform true (missing_script_world none) State.initial
      (by decide)).2.2.2.1⟩

/-! ## The default threshold -/

theorem quiet_initial : Quiet State.initial :=
  ⟨rfl, by simp [State.initial], by simp [State.initial]⟩

theorem deliver_quiet (st : State) (hq : Quiet st) (r : LogRecord)
    (hr : r.Severity = .debug) : deliver st r = [] := by
  unfold deliver
  rw [List.flatMap_eq_nil_iff]
  intro sink hs
  have hf : sink.filter st.g_logging_level r = false := by
    rw [hq.2.1 sink hs, hq.1, filter_expr, hr]
    decide
  simp [hf]

theorem quiet_log (w : World) (message : String) (st : State) (hq : Quiet st) :
    BOOST_LOG_SEV w .debug message st = st := by
  unfold BOOST_LOG_SEV push_record
  rw [deliver_quiet st hq _ rfl, List.append_nil]

theorem quiet_call (w : World) (e : Event) (st : State)
    (hne : ∀ o l f, e ≠ Event.write o l f) (hq : Quiet st) : Quiet (call w e st).state := by
  obtain ⟨h1, h2, h3⟩ := hq
  unfold call
  split_ifs <;>
  · refine ⟨h1, h2, ?_⟩
    intro o l f hm
    simp only [Outcome.state, List.mem_append, List.mem_singleton] at hm
    rcases hm with hm | hm
    · exact h3 o l f hm
    · exact hne o l f hm.symm

theorem quiet_andThen (o : Outcome) (next : State → Outcome) (ho : Quiet o.state)
    (hn : ∀ st, Quiet st → Quiet (next st).state) : Quiet (o.andThen next).state := by
  cases o with
  | ok st => exact hn st ho
  | thrown e st => exact ho

theorem quiet_attach_sink (w : World) (st : State) (hq : Quiet st) :
    Quiet (attach_sink w st).state := by
  unfold attach_sink
  refine quiet_andThen _ _ (quiet_call w _ st (by simp) hq) fun st1 h1 => ?_
  refine quiet_andThen _ _ (quiet_call w _ st1 (by simp) h1) fun st2 h2 => ?_
  refine quiet_andThen _ _ (quiet_call w _ st2 (by simp) h2) fun st3 h3 => ?_
  refine quiet_andThen _ _ (quiet_call w _ st3 (by simp) h3) fun st4 h4 => ?_
  obtain ⟨g1, g2, g3⟩ := h4
  refine ⟨g1, ?_, g3⟩
  intro sink hs
  simp only [Outcome.state, List.mem_append, List.mem_singleton] at hs
  rcases hs with hs | hs
  · exact g2 sink hs
  · rw [hs]

theorem quiet_load_external_data (w : World) (st : State) (hq : Quiet st) :
    Quiet (load_external_data w st).state := by
  unfold load_external_data
  cases w.canonical w.co_filename w.current_path with
  | none => exact hq
  | some p =>
    simp only [quiet_log w _ st hq]
    refine quiet_andThen _ _ (quiet_call w _ st (by simp) hq) fun st1 h1 => ?_
    simp only [quiet_log w _ st1 h1]
    exact quiet_call w _ st1 (by simp) h1

theorem quiet_expose_all (SUPPORT_AST : Bool) (w : World) (st : State) (hq : Quiet st) :
    Quiet (expose_all SUPPORT_AST w st).state := by
  unfold expose_all
  refine quiet_andThen _ _ (quiet_call w _ st (by simp) hq) fun st1 h1 => ?_
  refine quiet_andThen _ _ (quiet_call w _ st1 (by simp) h1) fun st2 h2 => ?_
  refine quiet_andThen _ _ (quiet_call w _ st2 (by simp) h2) fun st3 h3 => ?_
  have h4 : Quiet (if SUPPORT_AST then call w (.Expose .CAstNode) st3 else .ok st3).state := by
    cases SUPPORT_AST
    · exact h3
    · exact quiet_call w _ st3 (by simp) h3
  refine quiet_andThen _ _ h4 fun st5 h5 => ?_
  refine quiet_andThen _ _ (quiet_call w _ st5 (by simp) h5) fun st6 h6 => ?_
  refine quiet_andThen _ _ (quiet_call w _ st6 (by simp) h6) fun st7 h7 => ?_
  exact quiet_call w _ st7 (by simp) h7

theorem quiet_init_PyV8 (SUPPORT_AST : Bool) (w : World) (st : State)
    (henv : w.getenv_PYV8_LOG = none) (hq : Quiet st) :
    Quiet (init_PyV8 SUPPORT_AST w st).state := by
  unfold init_PyV8
  rw [initialize_logging_unset w st henv]
  refine quiet_andThen _ _ (quiet_attach_sink w st hq) fun st1 h1 => ?_
  refine quiet_andThen _ _ (quiet_load_external_data w st1 h1) fun st2 h2 => ?_
  simp only [quiet_log w _ st2 h2]
  refine quiet_andThen _ _ (quiet_call w _ st2 (by simp) h2) fun st3 h3 => ?_
  refine quiet_andThen _ _ (quiet_call w _ st3 (by simp) h3) fun st4 h4 => ?_
  simp only [quiet_log w _ st4 h4]
  refine quiet_andThen _ _ (quiet_call w _ st4 (by simp) h4) fun st5 h5 => ?_
  refine quiet_andThen _ _ (quiet_call w _ st5 (by simp) h5) fun st6 h6 => ?_
  refine quiet_andThen _ _ (quiet_call w _ st6 (by simp) h6) fun st7 h7 => ?_
  simp only [quiet_log w _ st7 h7]
  exact quiet_expose_all SUPPORT_AST w st7 h7

/-- C8: with the variable absent, `initialize_logging` leaves the threshold at
its initial value ERROR; in the state it leaves, a DEBUG record is written by
no sink, and the whole entry point, whatever its calls do, ends with the
threshold still at ERROR and without a single write to the log stream. -/
theorem unset_variable_keeps_error_threshold (SUPPORT_AST : Bool) (w : World)
    (henv : w.getenv_PYV8_LOG = none) :
    State.initial.g_logging_level = .error ∧
      (initialize_logging w State.initial).state.g_logging_level = .error ∧
      (∀ r : LogRecord, r.Severity = .debug →
        deliver (initialize_logging w State.initial).state r = []) ∧
      (init_PyV8 SUPPORT_AST w State.initial).state.g_logging_level = .error ∧
      (∀ o l f, Event.write o l f ∉ (init_PyV8 SUPPORT_AST w State.initial).state.events) := by
  have h1 : Quiet (initialize_logging w State.initial).state := by
    rw [initialize_logging_unset w _ henv]
    exact quiet_attach_sink w _ quiet_initial
  have h2 := quiet_init_PyV8 SUPPORT_AST w State.initial henv quiet_initial
  exact ⟨rfl, h1.1, fun r hr => deliver_quiet _ h1 r hr, h2.1, h2.2.2⟩

theorem unset_variable_keeps_error_threshold_witness :
    (sample_world none).getenv_PYV8_LOG = none ∧
      (initialize_logging (sample_world none) State.initial).exception = none ∧
      (State.initial.g_logging_level = .error ∧
        (initialize_logging (sample_world none) State.initial).state.g_logging_level = .error ∧
        (∀ r : LogRecord, r.Severity = .debug →
          deliver (initialize_logging (sample_world none) State.initial).state r = []) ∧
        (init_PyV8 false (sample_world none) State.initial).state.g_logging_level = .error ∧
        (∀ o l f, Event.write o l f ∉
          (init_PyV8 false (sample_world none) State.initial).state.events)) :=
  ⟨rfl, by decide, unset_variable_keeps_error_threshold false (sample_world none) rfl⟩

end PyV8
